import Mathlib

/-!
Shallow embedding of the image-relay server (`server.js`, given as
`src/unnamed/part_000`) and its browser client (`src/public/app.js`).

The provider SDK call `model.generateContent(...)` is modelled as a pure
function from (model name, full prompt, attempt index) to either a thrown
error or a response object; per-request JavaScript values become explicit
Lean structures.  JavaScript truthiness of possibly-absent string fields is
represented with `Option String`, where `none` stands for `undefined` and
the empty string keeps its JavaScript falsiness.  Response bodies are
association lists of JSON values (fields that `res.json` drops because the
value is `undefined` are simply omitted from the list, as `JSON.stringify`
does).  Calls to the provider and the 5-second retry sleeps are recorded in
an event trace so that "no outbound call" and retry pacing are provable.
-/

set_option autoImplicit false

/-- One entry of the `errorDetails` array of a provider error; `atType`
models the JSON key `@type`. -/
structure GmDetail where
  atType : Option String
  retryDelay : Option String
  deriving DecidableEq, Repr

/-- An error thrown by the provider SDK: `status`, `message` and
`errorDetails` are each possibly absent. -/
structure GmError where
  status : Option Nat
  message : Option String
  errorDetails : Option (List GmDetail)
  deriving DecidableEq, Repr

/-- `inlineData` of a response part: a possibly-absent MIME type and the
base64 payload (an absent payload is modelled as the empty string, which is
equally falsy in the JavaScript checks). -/
structure GmInline where
  mimeType : Option String
  data : String
  deriving DecidableEq, Repr

/-- One content part of a provider response. -/
structure GmPart where
  inlineData : Option GmInline
  deriving DecidableEq, Repr

/-- `candidate.content` of a provider response. -/
structure GmContent where
  parts : List GmPart
  deriving DecidableEq, Repr

/-- One candidate of a provider response. -/
structure GmCandidate where
  content : GmContent
  deriving DecidableEq, Repr

/-- A provider response object: its `candidates` array and the string that
`response.text()` returns. -/
structure GmResponse where
  candidates : List GmCandidate
  text : String
  deriving DecidableEq, Repr

/-- A JSON value appearing in one of the response bodies of the relay. -/
inductive JVal where
  | str (s : String)
  | bool (b : Bool)
  | num (n : Nat)
  | strList (xs : List String)
  | errDetails (ds : List GmDetail)
  deriving DecidableEq, Repr

/-- An HTTP response of the relay: status code and JSON body as a list of
key/value fields. -/
structure HttpResponse where
  status : Nat
  body : List (String × JVal)
  deriving DecidableEq, Repr

/-- Look a key up in a response body (first occurrence, as JSON objects have
unique keys here). -/
def bodyGet (r : HttpResponse) (k : String) : Option JVal :=
  (r.body.find? fun p => p.1 == k).map Prod.snd

/-- The provider stub: `model.generateContent(fullPrompt)` for a model name
and the attempt index of the retry loop, either throwing a `GmError` or
returning a `GmResponse`. -/
abbrev Provider := String → String → Nat → Except GmError GmResponse

/-- JavaScript `String.prototype.trim`, computed on the character list so
that concrete instances reduce inside the kernel. -/
def jsTrim (s : String) : String :=
  ⟨((s.data.dropWhile Char.isWhitespace).reverse.dropWhile Char.isWhitespace).reverse⟩

/-- JavaScript `String.prototype.startsWith`, on character lists. -/
def jsStartsWith (s pat : String) : Bool :=
  pat.data.isPrefixOf s.data

/-- JavaScript `s.substring(0, n)`, on character lists. -/
def jsTake (s : String) (n : Nat) : String :=
  ⟨s.data.take n⟩

/-- `s` contains `pat` as a substring (JavaScript `String.prototype.includes`). -/
def strContains (s pat : String) : Bool :=
  (List.range (s.data.length + 1)).any fun i => pat.data.isPrefixOf (s.data.drop i)

/-- `error.message?.includes(pat)`: false when the message is absent. -/
def msgIncludes (e : GmError) (pat : String) : Bool :=
  match e.message with
  | some m => strContains m pat
  | none => false

/-- The quota / rate-limit test used both by the retry loop (line 230) and
the catch-block classifier (line 339):
`error.status === 429`, or the message includes `quota` or `Quota`. -/
def isQuotaError (e : GmError) : Bool :=
  e.status == some 429 || msgIncludes e "quota" || msgIncludes e "Quota"

/-- The model-not-found test used both by the retry loop (line 248) and the
catch-block classifier (line 329):
`error.status === 404`, or the message includes `not found` or `Not Found`. -/
def isNotFoundError (e : GmError) : Bool :=
  e.status == some 404 || msgIncludes e "not found" || msgIncludes e "Not Found"

/-- The `details: error.message` field: omitted when the message is absent,
as `res.json` drops `undefined` values. -/
def detailsField (e : GmError) : List (String × JVal) :=
  match e.message with
  | some m => [("details", JVal.str m)]
  | none => []

/-- The `message: error.message` field of the generic 500 body. -/
def messageField (e : GmError) : List (String × JVal) :=
  match e.message with
  | some m => [("message", JVal.str m)]
  | none => []

/-- Line 340: find the first entry of `error.errorDetails` whose `@type`
includes `RetryInfo` and read its `retryDelay`; fall back to `16` when the
details, the entry or the delay are absent or the delay is falsy. -/
def retryAfterOf (e : GmError) : String :=
  match (e.errorDetails.getD []).find? (fun d =>
      match d.atType with
      | some t => strContains t "RetryInfo"
      | none => false) with
  | some d =>
    match d.retryDelay with
    | some rd => if rd == "" then "16" else rd
    | none => "16"
  | none => "16"

/-- The catch block of `POST /api/generate` (lines 325-362): map a thrown
error to an HTTP response. -/
def classifyError (e : GmError) : HttpResponse :=
  if isNotFoundError e then
    { status := 404
      body := [("error", JVal.str "Model not found"),
               ("message", JVal.str "The requested Gemini model is not available. Tried multiple models but none were found."),
               ("suggestion", JVal.str "Please check your API key permissions and available models. Visit /api/models for debugging info.")]
              ++ detailsField e }
  else if isQuotaError e then
    { status := 429
      body := [("error", JVal.str "API quota exceeded"),
               ("message", JVal.str "You have exceeded your current quota. Please wait a moment and try again."),
               ("retryAfter", JVal.str (retryAfterOf e ++ " seconds"))]
              ++ detailsField e }
  else if e.status == some 401 || msgIncludes e "API key" then
    { status := 401
      body := [("error", JVal.str "Invalid API key"),
               ("message", JVal.str "Please check your GEMINI_API_KEY environment variable.")] }
  else
    { status := 500
      body := [("error", JVal.str "Failed to generate image")] ++ messageField e }

/-- Predicate of the image-extraction loop (line 294):
the part has `inlineData` with a truthy `mimeType` starting with `image/`. -/
def imagePartPred (p : GmPart) : Bool :=
  match p.inlineData with
  | some d =>
    match d.mimeType with
    | some m => m != "" && jsStartsWith m "image/"
    | none => false
  | none => false

/-- Predicate of the MIME lookup (line 316): `p.inlineData?.mimeType` is truthy. -/
def mimePartPred (p : GmPart) : Bool :=
  match p.inlineData with
  | some d =>
    match d.mimeType with
    | some m => m != ""
    | none => false
  | none => false

/-- The `imageData` found by the loop of lines 292-298: the `data` of the
first part declaring an image MIME type. -/
def firstImageData (parts : List GmPart) : Option String :=
  match parts.find? imagePartPred with
  | some p =>
    match p.inlineData with
    | some d => some d.data
    | none => none
  | none => none

/-- Line 316: the `mimeType` of the first part whose `inlineData` declares a
truthy `mimeType`, defaulting to `image/png`. -/
def responseMime (parts : List GmPart) : String :=
  match parts.find? mimePartPred with
  | some p =>
    match p.inlineData with
    | some d => d.mimeType.getD "image/png"
    | none => "image/png"
  | none => "image/png"

/-- The 501 body of lines 307-312, truncating `response.text()` to 500
characters. -/
def textOnlyResponse (response : GmResponse) : HttpResponse :=
  { status := 501
    body := [("error", JVal.str "Model does not support direct image generation"),
             ("message", JVal.str "The selected Gemini model returned text instead of an image. Gemini Flash 2.5 (NanoBanana) may require a different API endpoint or method for image generation, or may not be available on your current plan."),
             ("response", JVal.str (jsTake response.text 500)),
             ("suggestion", JVal.str "Please check if Gemini Flash 2.5 has image generation capabilities on your API plan, or consider using a dedicated image generation API.")] }

/-- The error thrown at line 284 when the candidates array is empty. -/
def noGmResponseError : GmError :=
  { status := none, message := some "No response from Gemini API", errorDetails := none }

/-- Lines 281-323: inspect the successful provider response.  The thrown
`No response from Gemini API` error lands in the same catch block as every
other error, hence `classifyError`. -/
def processResponse (response : GmResponse) (prompt : String) : HttpResponse :=
  match response.candidates with
  | [] => classifyError noGmResponseError
  | candidate :: _ =>
    let parts := candidate.content.parts
    match firstImageData parts with
    | some d =>
      if d == "" then textOnlyResponse response
      else
        { status := 200
          body := [("success", JVal.bool true),
                   ("image", JVal.str ("data:" ++ responseMime parts ++ ";base64," ++ d)),
                   ("prompt", JVal.str prompt)] }
    | none => textOnlyResponse response

/-- The per-request mutable locals `quotaError` and `lastError` of
lines 197-200 (`response` and `successfulModel` are handled by the return
value; `successfulModel` is only logged). -/
structure LoopState where
  quotaError : Option GmError
  lastError : Option GmError
  deriving DecidableEq, Repr

/-- `const maxRetries = 2` (line 205). -/
def maxRetries : Nat := 2

/-- An observable action of the handler: a provider call for a model at a
given attempt index, or a retry sleep of the given number of seconds. -/
inductive Ev where
  | call (model : String) (attempt : Nat)
  | sleep (seconds : Nat)
  deriving DecidableEq, Repr

/-- The `while (retryCount <= maxRetries)` retry loop of lines 207-264 for a
single candidate, with an explicit fuel argument for structural recursion;
the loop makes at most `maxRetries + 1` provider calls, so the fuel (always
`maxRetries + 1` at entry) never runs out. -/
def runCandidateAux (provider : Provider) (name fullPrompt : String) :
    Nat → Nat → LoopState → LoopState × Option GmResponse × List Ev
  | _, 0, st => (st, none, [])
  | retryCount, fuel + 1, st =>
    match provider name fullPrompt retryCount with
    | Except.ok result => (st, some result, [Ev.call name retryCount])
    | Except.error e =>
      if isQuotaError e then
        let st1 : LoopState := { st with quotaError := st.quotaError.orElse fun _ => some e }
        if retryCount < maxRetries then
          let r := runCandidateAux provider name fullPrompt (retryCount + 1) fuel st1
          (r.1, r.2.1, Ev.call name retryCount :: Ev.sleep 5 :: r.2.2)
        else
          ({ st1 with lastError := some e }, none, [Ev.call name retryCount])
      else
        ({ st with lastError := some e }, none, [Ev.call name retryCount])

/-- One candidate of the fallback loop, starting at `retryCount = 0`. -/
def runCandidate (provider : Provider) (name fullPrompt : String) (st : LoopState) :
    LoopState × Option GmResponse × List Ev :=
  runCandidateAux provider name fullPrompt 0 (maxRetries + 1) st

/-- The `for (const modelName of modelNames)` loop of lines 203-270. -/
def runModels (provider : Provider) (fullPrompt : String) :
    List String → LoopState → LoopState × Option GmResponse × List Ev
  | [], st => (st, none, [])
  | name :: rest, st =>
    match runCandidate provider name fullPrompt st with
    | (st1, some resp, tr) => (st1, some resp, tr)
    | (st1, none, tr) =>
      let r := runModels provider fullPrompt rest st1
      (r.1, r.2.1, tr ++ r.2.2)

/-- The fallback candidate list of lines 188-195. -/
def modelNames : List String :=
  ["gemini-2.5-flash-image-preview",
   "gemini-2.0-flash-exp",
   "gemini-2.5-flash-image",
   "gemini-1.5-flash",
   "gemini-1.5-pro",
   "gemini-pro"]

/-- Lines 272-278: pick the error to rethrow when no candidate produced a
response.  `if (!response && quotaError && !lastError) throw quotaError;`
then rethrow `lastError`, or the generic no-available-model error. -/
def surfacedError (st : LoopState) : GmError :=
  match st.quotaError, st.lastError with
  | some qe, none => qe
  | _, some le => le
  | none, none =>
    { status := none
      message := some "No available model found. Please check your API key and available models."
      errorDetails := none }

/-- `!!apiKey`: the credential is configured when present and non-empty
(the empty string is falsy in `!genAI || !apiKey`). -/
def keyConfigured : Option String → Bool
  | none => false
  | some k => k != ""

/-- The 400 body of lines 175-177. -/
def badPromptResponse : HttpResponse :=
  { status := 400, body := [("error", JVal.str "Prompt is required")] }

/-- The 500 body of lines 181-183. -/
def noKeyGenerateResponse : HttpResponse :=
  { status := 500
    body := [("error", JVal.str "Gemini API key not configured. Please set GEMINI_API_KEY environment variable.")] }

/-- The `POST /api/generate` handler (lines 170-363), returning the HTTP
response together with the trace of provider calls and retry sleeps. -/
def handleGenerate (apiKey : Option String) (provider : Provider)
    (prompt : Option String) : HttpResponse × List Ev :=
  match prompt with
  | none => (badPromptResponse, [])
  | some p =>
    if p == "" || (jsTrim p).length == 0 then (badPromptResponse, [])
    else if !keyConfigured apiKey then (noKeyGenerateResponse, [])
    else
      let imageGenerationPrompt := "Generate an image: " ++ p
      let r := runModels provider imageGenerationPrompt modelNames
        { quotaError := none, lastError := none }
      match r.2.1 with
      | some response => (processResponse response p, r.2.2)
      | none => (classifyError (surfacedError r.1), r.2.2)

/-- Body of the missing-credential 500 of `GET /api/list-models`
(lines 37-40): note it carries `keyLoaded: !!apiKey`. -/
def listModelsNoKeyBody (apiKey : Option String) : List (String × JVal) :=
  [("error", JVal.str "Gemini API key not configured"),
   ("keyLoaded", JVal.bool (keyConfigured apiKey))]

/-- The JSON data of the `ListModels` fetch in `GET /api/list-models`:
`response.ok`, `data.error?.message` and `data.models` (each model entry is
abstracted to its name, which is all the route forwards). -/
structure ListModelsData where
  ok : Bool
  errMessage : Option String
  models : Option (List String)
  deriving DecidableEq, Repr

/-- The `GET /api/list-models` handler (lines 34-63); `svc` is the outcome
of the outbound `fetch`+`json()` call, `Except.error m` being a rejection
with message `m`. -/
def listModelsHandler (apiKey : Option String)
    (svc : Except String ListModelsData) : HttpResponse :=
  if !keyConfigured apiKey then
    { status := 500, body := listModelsNoKeyBody apiKey }
  else
    match svc with
    | Except.error m =>
      { status := 500
        body := [("error", JVal.str "Failed to list models"),
                 ("message", JVal.str m),
                 ("keyLoaded", JVal.bool (keyConfigured apiKey))] }
    | Except.ok data =>
      if !data.ok then
        { status := 500
          body := [("error", JVal.str "Failed to list models"),
                   ("message", JVal.str
                     (match data.errMessage with
                      | some m => if m == "" then "Failed to list models" else m
                      | none => "Failed to list models")),
                   ("keyLoaded", JVal.bool (keyConfigured apiKey))] }
      else
        { status := 200
          body := [("success", JVal.bool true),
                   ("models", JVal.strList (data.models.getD [])),
                   ("totalModels", JVal.num ((data.models.map List.length).getD 0))] }

/-- The candidate list of `GET /api/test-key` (lines 77-85). -/
def testKeyModelNames : List String :=
  ["gemini-2.5-flash-image-preview",
   "gemini",
   "gemini-pro",
   "gemini-1.0-pro",
   "gemini-1.5-pro",
   "gemini-1.5-flash",
   "gemini-2.0-flash-exp"]

/-- The model loop of `GET /api/test-key` (lines 87-111): try
`generateContent` with the fixed greeting on each model; `svc` returns the
text or throws. -/
def testKeyLoop (svc : String → Except GmError String) :
    List String → Option GmError → Option GmError × Option (String × String)
  | [], lastError => (lastError, none)
  | name :: rest, lastError =>
    match svc name with
    | Except.ok text => (lastError, some (name, text))
    | Except.error e => testKeyLoop svc rest (some e)

/-- The `status: error.status` field of the test-key failure body, omitted
when absent. -/
def statusField (e : GmError) : List (String × JVal) :=
  match e.status with
  | some n => [("status", JVal.num n)]
  | none => []

/-- The `GET /api/test-key` handler (lines 66-126). -/
def testKeyHandler (apiKey : Option String)
    (svc : String → Except GmError String) : HttpResponse :=
  if !keyConfigured apiKey then
    { status := 500
      body := [("error", JVal.str "Gemini API key not configured"),
               ("keyLoaded", JVal.bool (keyConfigured apiKey)),
               ("keyLength", JVal.num (match apiKey with
                 | some k => if k == "" then 0 else k.length
                 | none => 0))] }
  else
    match testKeyLoop svc testKeyModelNames none with
    | (_, some (name, text)) =>
      { status := 200
        body := [("success", JVal.bool true),
                 ("message", JVal.str "API key is working!"),
                 ("workingModel", JVal.str name),
                 ("testResponse", JVal.str text),
                 ("keyLoaded", JVal.bool true),
                 ("keyPreview", JVal.str (jsTake (apiKey.getD "") 10 ++ "..."))] }
    | (lastError, none) =>
      let e := lastError.getD
        { status := none, message := some "No working models found", errorDetails := none }
      { status := 500
        body := [("error", JVal.str "API key test failed")]
                ++ messageField e
                ++ statusField e
                ++ [("details", match e.errorDetails with
                      | some ds => JVal.errDetails ds
                      | none => JVal.str "No additional details"),
                    ("keyLoaded", JVal.bool (keyConfigured apiKey)),
                    ("suggestion", JVal.str "Try visiting /api/list-models to see available models")] }

/-- The candidate list of `GET /api/models` (lines 138-146). -/
def apiModelsModelNames : List String :=
  ["gemini-2.0-flash-exp",
   "gemini-1.5-flash",
   "gemini-1.5-pro",
   "gemini-pro",
   "gemini-1.0-pro",
   "gemini-1.5-flash-latest",
   "gemini-1.5-pro-latest"]

/-- The `GET /api/models` handler (lines 129-167).  `getGenerativeModel`
never throws for these names, so every name lands in `availableModels` with
status `testing`; the entries are abstracted to their names.  Note the
missing-credential 500 body (lines 132-134) has no `keyLoaded` field. -/
def apiModelsHandler (apiKey : Option String) : HttpResponse :=
  if !keyConfigured apiKey then
    { status := 500, body := [("error", JVal.str "Gemini API key not configured")] }
  else
    { status := 200
      body := [("message", JVal.str "Test models in /api/generate endpoint"),
               ("modelsToTry", JVal.strList apiModelsModelNames),
               ("availableModels", JVal.strList apiModelsModelNames)] }

/-- The module-level state a request handler can read: only the constant
`apiKey` loaded at startup (lines 13, 21).  All of `lastError`, `response`,
`successfulModel`, `quotaError`, `retryCount` are `let`/`const` locals of a
single invocation of the handler. -/
structure ServerState where
  apiKey : Option String
  deriving DecidableEq, Repr

/-- One `POST /api/generate` request processed against the server state;
the handler does not write any shared state, so the state is returned
unchanged. -/
def handleRequestSt (provider : Provider) (st : ServerState)
    (prompt : Option String) : HttpResponse × ServerState :=
  ((handleGenerate st.apiKey provider prompt).1, st)

/-- Process a sequence of `POST /api/generate` requests, threading the
server state from one request to the next. -/
def serveAll (provider : Provider) (st : ServerState) :
    List (Option String) → List HttpResponse
  | [] => []
  | r :: rs =>
    let p := handleRequestSt provider st r
    p.1 :: serveAll provider p.2 rs

/-- The errors observed through a trace: for each provider call in the
trace, the error it produced (if it produced one), in trace order. -/
def errorsSeen (provider : Provider) (fullPrompt : String) (tr : List Ev) :
    List GmError :=
  tr.filterMap fun ev =>
    match ev with
    | Ev.call name i =>
      match provider name fullPrompt i with
      | Except.error e => some e
      | Except.ok _ => none
    | Ev.sleep _ => none

/-- Attempt `i` on model `name` fails with a quota-classified error. -/
def attemptQuotaFailed (provider : Provider) (name fullPrompt : String) (i : Nat) : Bool :=
  match provider name fullPrompt i with
  | Except.error e => isQuotaError e
  | Except.ok _ => false

/-- The `data.image` field of the relay JSON as the client reads it: a
plain string, or an object with optional `url` / `data` fields (absent or
empty strings are falsy). -/
inductive ImageField where
  | str (s : String)
  | obj (url : Option String) (dataB64 : Option String)
  deriving DecidableEq, Repr

/-- The parsed JSON of the `/api/generate` response together with
`response.ok`, as the client destructures it. -/
structure ApiData where
  ok : Bool
  error : Option String
  image : Option ImageField
  prompt : Option String
  deriving DecidableEq, Repr

/-- How the `fetch` and `response.json()` of the client settle: a parsed
response, or a rejection carrying a message. -/
inductive FetchOutcome where
  | settled (data : ApiData)
  | threw (message : String)
  deriving DecidableEq, Repr

/-- The DOM state the submit handler of `public/app.js` reads and writes. -/
structure ClientState where
  btnDisabled : Bool
  btnTextShown : Bool
  btnLoaderShown : Bool
  resultShown : Bool
  errorShown : Bool
  errorText : String
  imageSrc : Option String
  promptDisplay : String
  deriving DecidableEq, Repr

/-- `showError` of `public/app.js` (lines 76-79). -/
def showError (message : String) (st : ClientState) : ClientState :=
  { st with errorText := message, errorShown := true }

/-- The `catch` block (lines 61-63): show `error.message`, or the generic
error text when the message is falsy. -/
def clientCatch (message : String) (st : ClientState) : ClientState :=
  showError (if message == "" then "An error occurred while generating the image" else message) st

/-- The body of the `try` block of the submit handler (lines 29-63,
including the `catch`), after the fetch settled as `outcome`.  `prompt` is
the trimmed prompt captured before the fetch. -/
def clientTryCatch (prompt : String) (outcome : FetchOutcome) (st : ClientState) : ClientState :=
  match outcome with
  | FetchOutcome.threw m => clientCatch m st
  | FetchOutcome.settled data =>
    if !data.ok then
      clientCatch (match data.error with
        | some e => if e == "" then "Failed to generate image" else e
        | none => "Failed to generate image") st
    else
      match data.image with
      | some (ImageField.str s) =>
        if s == "" then clientCatch "No image data received" st
        else
          { st with imageSrc := some s,
                    promptDisplay := (match data.prompt with
                      | some p => if p == "" then prompt else p
                      | none => prompt),
                    resultShown := true }
      | some (ImageField.obj url dataB64) =>
        let st1 :=
          match url with
          | some u =>
            if u == "" then
              (match dataB64 with
               | some d => if d == "" then st else { st with imageSrc := some ("data:image/png;base64," ++ d) }
               | none => st)
            else { st with imageSrc := some u }
          | none =>
            (match dataB64 with
             | some d => if d == "" then st else { st with imageSrc := some ("data:image/png;base64," ++ d) }
             | none => st)
        { st1 with promptDisplay := (match data.prompt with
                     | some p => if p == "" then prompt else p
                     | none => prompt),
                   resultShown := true }
      | none => clientCatch "No image data received" st

/-- The form submit handler of `public/app.js` (lines 10-70): trim the
input, bail out with an error message if blank, otherwise toggle the
loading UI, run the fetch (whose settling is `outcome`), and in `finally`
restore the submit control. -/
def handleSubmit (promptInputValue : String) (outcome : FetchOutcome)
    (st : ClientState) : ClientState :=
  let prompt := jsTrim promptInputValue
  if prompt == "" then showError "Please enter a prompt" st
  else
    let st1 := { st with resultShown := false, errorShown := false }
    let st2 := { st1 with btnDisabled := true, btnTextShown := false, btnLoaderShown := true }
    let st3 := clientTryCatch prompt outcome st2
    { st3 with btnDisabled := false, btnTextShown := true, btnLoaderShown := false }

/-- The error-to-status mapping as step 7 of the spec states it, with the
same precedence the spec lists: model-not-found first, then quota, then
authentication, else generic.  "Message containing `not found`" covers the
two capitalizations the provider emits (`not found` / `Not Found`), and
likewise for `quota`. -/
def specErrorStatus (e : GmError) : Nat :=
  if isNotFoundError e then 404
  else if isQuotaError e then 429
  else if e.status == some 401 || msgIncludes e "API key" then 401
  else 500

/-- A plain 404 error (not quota-classified). -/
def err404cex : GmError := { status := some 404, message := some "nope", errorDetails := none }

/-- A quota error. -/
def errQuotaCex : GmError := { status := some 429, message := some "quota", errorDetails := none }

/-- A provider stub whose every call fails with the plain 404 error. -/
def prov404 : Provider := fun _ _ _ => Except.error err404cex

/-- The call trace of `prov404` across the candidate list: one attempt per
candidate, no retries. -/
def tr404 : List Ev :=
  [Ev.call "gemini-2.5-flash-image-preview" 0,
   Ev.call "gemini-2.0-flash-exp" 0,
   Ev.call "gemini-2.5-flash-image" 0,
   Ev.call "gemini-1.5-flash" 0,
   Ev.call "gemini-1.5-pro" 0,
   Ev.call "gemini-pro" 0]

/-- A provider stub whose first candidate fails with a plain 404 and whose
later candidates all fail with quota errors. -/
def provMixedErrors : Provider := fun name _ _ =>
  if name == "gemini-2.5-flash-image-preview" then Except.error err404cex
  else Except.error errQuotaCex

/-- A response holding a single `image/png` part with payload `AAAA`. -/
def pngResp : GmResponse :=
  { candidates := [{ content := { parts :=
      [{ inlineData := some { mimeType := some "image/png", data := "AAAA" } }] } }]
    text := "" }

/-- The first (and only) candidate of `pngResp`. -/
def pngCand : GmCandidate :=
  { content := { parts := [{ inlineData := some { mimeType := some "image/png", data := "AAAA" } }] } }

/-- A response in which a non-image part declaring `text/plain` precedes the
`image/png` part carrying the payload. -/
def mixedMimeResp : GmResponse :=
  { candidates := [{ content := { parts :=
      [{ inlineData := some { mimeType := some "text/plain", data := "T" } },
       { inlineData := some { mimeType := some "image/png", data := "AAAA" } }] } }]
    text := "" }

/-- A response carrying only text, with no image part. -/
def textGmResp : GmResponse :=
  { candidates := [{ content := { parts := [{ inlineData := none }] } }]
    text := "Here is a description instead of an image." }

/-- A response whose candidates array is empty. -/
def emptyCandResp : GmResponse := { candidates := [], text := "" }

/-- The initial DOM state of the client page. -/
def initClientState : ClientState :=
  { btnDisabled := false, btnTextShown := true, btnLoaderShown := false,
    resultShown := false, errorShown := false, errorText := "",
    imageSrc := none, promptDisplay := "" }

lemma string_length_eq_zero {s : String} (h : s.length = 0) : s = "" := by
  cases s with
  | mk data =>
    cases data with
    | nil => rfl
    | cons a l => simp [String.length] at h

lemma promptCond_false {p : String} (h : jsTrim p ≠ "") :
    (p == "" || (jsTrim p).length == 0) = false := by
  have hp : p ≠ "" := by
    intro he
    exact h (by rw [he]; decide)
  have hl : (jsTrim p).length ≠ 0 := fun hz => h (string_length_eq_zero hz)
  simp [hp, hl]

lemma runCandidate_unfold0 (provider : Provider) (name fp : String) (st : LoopState) :
    runCandidate provider name fp st =
      (match provider name fp 0 with
       | Except.ok result => (st, some result, [Ev.call name 0])
       | Except.error e =>
         if isQuotaError e then
           let r := runCandidateAux provider name fp 1 2
             { st with quotaError := st.quotaError.orElse fun _ => some e }
           (r.1, r.2.1, Ev.call name 0 :: Ev.sleep 5 :: r.2.2)
         else ({ st with lastError := some e }, none, [Ev.call name 0])) := rfl

lemma runCandidateAux_unfold1 (provider : Provider) (name fp : String) (st : LoopState) :
    runCandidateAux provider name fp 1 2 st =
      (match provider name fp 1 with
       | Except.ok result => (st, some result, [Ev.call name 1])
       | Except.error e =>
         if isQuotaError e then
           let r := runCandidateAux provider name fp 2 1
             { st with quotaError := st.quotaError.orElse fun _ => some e }
           (r.1, r.2.1, Ev.call name 1 :: Ev.sleep 5 :: r.2.2)
         else ({ st with lastError := some e }, none, [Ev.call name 1])) := rfl

lemma runCandidateAux_unfold2 (provider : Provider) (name fp : String) (st : LoopState) :
    runCandidateAux provider name fp 2 1 st =
      (match provider name fp 2 with
       | Except.ok result => (st, some result, [Ev.call name 2])
       | Except.error e =>
         if isQuotaError e then
           ({ st with quotaError := st.quotaError.orElse fun _ => some e, lastError := some e },
            none, [Ev.call name 2])
         else ({ st with lastError := some e }, none, [Ev.call name 2])) := rfl

lemma handleGenerate_valid (k p : String) (provider : Provider)
    (hk : k ≠ "") (hp : jsTrim p ≠ "") :
    handleGenerate (some k) provider (some p) =
      (let r := runModels provider ("Generate an image: " ++ p) modelNames
          { quotaError := none, lastError := none }
       match r.2.1 with
       | some response => (processResponse response p, r.2.2)
       | none => (classifyError (surfacedError r.1), r.2.2)) := by
  simp [handleGenerate, promptCond_false hp, keyConfigured, hk]

lemma runModels_first_ok (provider : Provider) (fp name : String) (rest : List String)
    (st : LoopState) (r : GmResponse) (h : provider name fp 0 = Except.ok r) :
    runModels provider fp (name :: rest) st = (st, some r, [Ev.call name 0]) := by
  simp [runModels, runCandidate_unfold0, h]

lemma errorsSeen_append (provider : Provider) (fp : String) (t1 t2 : List Ev) :
    errorsSeen provider fp (t1 ++ t2) = errorsSeen provider fp t1 ++ errorsSeen provider fp t2 := by
  simp [errorsSeen]


lemma runCandidate_fail (provider : Provider) (name fp : String) (st st1 : LoopState)
    (tr : List Ev) (h : runCandidate provider name fp st = (st1, none, tr)) :
    ∃ e i, st1.lastError = some e ∧ provider name fp i = Except.error e
      ∧ (errorsSeen provider fp tr).getLast? = some e := by
  rw [runCandidate_unfold0] at h
  rcases h0 : provider name fp 0 with e0 | r0 <;> rw [h0] at h
  case ok => simp at h
  case error =>
    rcases hq0 : isQuotaError e0 with _ | _
    · simp only [hq0, Bool.false_eq_true, if_false] at h
      rw [Prod.mk.injEq, Prod.mk.injEq] at h
      obtain ⟨hst, -, htr⟩ := h
      refine ⟨e0, 0, ?_, h0, ?_⟩
      · rw [← hst]
      · rw [← htr]; simp [errorsSeen, h0]
    · simp only [hq0, if_true] at h
      rw [runCandidateAux_unfold1] at h
      rcases h1 : provider name fp 1 with e1 | r1 <;> rw [h1] at h
      case ok => simp at h
      case error =>
        rcases hq1 : isQuotaError e1 with _ | _
        · simp only [hq1, Bool.false_eq_true, if_false] at h
          rw [Prod.mk.injEq, Prod.mk.injEq] at h
          obtain ⟨hst, -, htr⟩ := h
          refine ⟨e1, 1, ?_, h1, ?_⟩
          · rw [← hst]
          · rw [← htr]; simp [errorsSeen, h0, h1]
        · simp only [hq1, if_true] at h
          rw [runCandidateAux_unfold2] at h
          rcases h2 : provider name fp 2 with e2 | r2 <;> rw [h2] at h
          case ok => simp at h
          case error =>
            rcases hq2 : isQuotaError e2 with _ | _
            · simp only [hq2, Bool.false_eq_true, if_false] at h
              rw [Prod.mk.injEq, Prod.mk.injEq] at h
              obtain ⟨hst, -, htr⟩ := h
              refine ⟨e2, 2, ?_, h2, ?_⟩
              · rw [← hst]
              · rw [← htr]; simp [errorsSeen, h0, h1, h2]
            · simp only [hq2, if_true] at h
              rw [Prod.mk.injEq, Prod.mk.injEq] at h
              obtain ⟨hst, -, htr⟩ := h
              refine ⟨e2, 2, ?_, h2, ?_⟩
              · rw [← hst]
              · rw [← htr]; simp [errorsSeen, h0, h1, h2]

lemma runModels_fail (provider : Provider) (fp : String) (names : List String)
    (st st1 : LoopState) (tr : List Ev)
    (h : runModels provider fp names st = (st1, none, tr)) :
    (names = [] ∧ st1 = st ∧ tr = []) ∨
    ∃ e i n, st1.lastError = some e ∧ provider n fp i = Except.error e
      ∧ (errorsSeen provider fp tr).getLast? = some e := by
  induction names generalizing st tr with
  | nil =>
    left
    simp [runModels] at h
    exact ⟨rfl, h.1.symm, h.2⟩
  | cons name rest ih =>
    right
    rcases hc : runCandidate provider name fp st with ⟨stc, ro, trc⟩
    cases ro with
    | some r => simp [runModels, hc] at h
    | none =>
      rcases hr : runModels provider fp rest stc with ⟨st2, ro2, tr2⟩
      simp only [runModels, hc, hr] at h
      rw [Prod.mk.injEq, Prod.mk.injEq] at h
      obtain ⟨hst, hro, htr⟩ := h
      rcases ih stc tr2 (by rw [hr, hst, hro]) with ⟨hrest, hst2, htr2⟩ | ⟨e, i, n, hle, hpe, hlast⟩
      · obtain ⟨e, i, hle, hpe, hlast⟩ := runCandidate_fail provider name fp st stc trc hc
        refine ⟨e, i, name, ?_, hpe, ?_⟩
        · rw [hst2]; exact hle
        · rw [← htr, htr2]
          simpa [errorsSeen_append] using hlast
      · refine ⟨e, i, n, ?_, hpe, ?_⟩
        · exact hle
        · rw [← htr, errorsSeen_append, List.getLast?_append, hlast]
          rfl

/-- C6: for every `POST /api/generate` request whose prompt is missing,
blank, or whitespace-only after trimming, the relay returns the 400
"Prompt is required" response immediately, and the call trace is empty: no
call to the provider is made (the result is also independent of the
provider and of the configured key). -/
theorem generate_blank_prompt_400 (apiKey : Option String) (provider : Provider)
    (prompt : Option String)
    (h : prompt = none ∨ ∃ p, prompt = some p ∧ jsTrim p = "") :
    handleGenerate apiKey provider prompt = (badPromptResponse, [])
      ∧ badPromptResponse.status = 400 := by
  refine ⟨?_, rfl⟩
  rcases h with h | ⟨p, hp, ht⟩
  · rw [h]; rfl
  · rw [hp]
    have hz : ((jsTrim p).length == 0) = true := by rw [ht]; rfl
    simp [handleGenerate, hz]

/-- Witness for C6 at the whitespace-only prompt `"   "`. -/
theorem generate_blank_prompt_400_witness :
    handleGenerate (some "key") prov404 (some "   ") = (badPromptResponse, [])
      ∧ badPromptResponse.status = 400 :=
  generate_blank_prompt_400 (some "key") prov404 (some "   ")
    (Or.inr ⟨"   ", rfl, by decide⟩)

/-- C9: for every form submission whose trimmed prompt is non-empty (so the
fetch is issued), the submit control ends re-enabled once the request
settles, whatever the outcome (success, error status, or rejection):
the `finally` block always restores the button. -/
theorem submit_reenables_button (v : String) (outcome : FetchOutcome) (st : ClientState)
    (h : jsTrim v ≠ "") :
    (handleSubmit v outcome st).btnDisabled = false := by
  have hc : (jsTrim v == "") = false := by simp [h]
  simp [handleSubmit, hc]

/-- Witness for C9: a rejected fetch on a fresh page still re-enables the
button. -/
theorem submit_reenables_button_witness :
    (handleSubmit "a cat" (FetchOutcome.threw "network down") initClientState).btnDisabled
      = false :=
  submit_reenables_button "a cat" (FetchOutcome.threw "network down") initClientState
    (by decide)

/-- C8: processing a list of `/api/generate` requests against the
module-level server state, the handler writes no shared state (the state
after each request is the state before it), and two requests with the same
prompt receive the same response: the outcome is a function of the request
alone, for a fixed deterministic provider. -/
theorem generate_idempotent_across_requests (provider : Provider) (st : ServerState)
    (reqs : List (Option String)) (i j : Nat)
    (h : reqs[i]? = reqs[j]?) :
    (∀ r, (handleRequestSt provider st r).2 = st)
      ∧ (serveAll provider st reqs)[i]? = (serveAll provider st reqs)[j]? := by
  refine ⟨fun r => rfl, ?_⟩
  have hmap : ∀ (s : ServerState) (rs : List (Option String)),
      serveAll provider s rs = rs.map fun r => (handleGenerate s.apiKey provider r).1 := by
    intro s rs
    induction rs with
    | nil => rfl
    | cons a l ih => simp [serveAll, handleRequestSt, ih]
  rw [hmap, List.getElem?_map, List.getElem?_map, h]

/-- Witness for C8: the first and third of three requests share a prompt
and receive the same response. -/
theorem generate_idempotent_across_requests_witness :
    (∀ r, (handleRequestSt prov404 { apiKey := some "key" } r).2 = { apiKey := some "key" })
      ∧ (serveAll prov404 { apiKey := some "key" } [some "a cat", some "a dog", some "a cat"])[0]?
          = (serveAll prov404 { apiKey := some "key" } [some "a cat", some "a dog", some "a cat"])[2]? :=
  generate_idempotent_across_requests prov404 { apiKey := some "key" }
    [some "a cat", some "a dog", some "a cat"] 0 2 rfl

/-- C2 (amended): with the provider credential absent, each of the four
`/api` routes refuses with status 500 and attempts no outbound provider
call (the result does not depend on the outbound service, and the generate
trace is empty); `/api/list-models` and `/api/test-key` include
`keyLoaded: false` in the body, while `/api/models` and `/api/generate`
return only an error message.  `/api/generate` checks the prompt first, so
its 500 is observed for any non-blank prompt. -/
theorem api_routes_no_key_500 (apiKey : Option String)
    (svcL svcL2 : Except String ListModelsData)
    (svcT svcT2 : String → Except GmError String)
    (provider provider2 : Provider) (prompt : Option String)
    (hk : keyConfigured apiKey = false)
    (hp : ∃ p, prompt = some p ∧ jsTrim p ≠ "") :
    (listModelsHandler apiKey svcL).status = 500
  ∧ listModelsHandler apiKey svcL = listModelsHandler apiKey svcL2
  ∧ bodyGet (listModelsHandler apiKey svcL) "keyLoaded" = some (JVal.bool false)
  ∧ (testKeyHandler apiKey svcT).status = 500
  ∧ testKeyHandler apiKey svcT = testKeyHandler apiKey svcT2
  ∧ bodyGet (testKeyHandler apiKey svcT) "keyLoaded" = some (JVal.bool false)
  ∧ (apiModelsHandler apiKey).status = 500
  ∧ handleGenerate apiKey provider prompt = (noKeyGenerateResponse, [])
  ∧ handleGenerate apiKey provider prompt = handleGenerate apiKey provider2 prompt := by
  obtain ⟨p, rfl, hp2⟩ := hp
  have hgen : ∀ pr : Provider, handleGenerate apiKey pr (some p) = (noKeyGenerateResponse, []) := by
    intro pr
    simp [handleGenerate, promptCond_false hp2, hk]
  refine ⟨?_, ?_, ?_, ?_, ?_, ?_, ?_, hgen provider, (hgen provider).trans (hgen provider2).symm⟩
  all_goals
    simp [listModelsHandler, testKeyHandler, apiModelsHandler, hk, bodyGet, listModelsNoKeyBody]

/-- Counterexample to C2 as stated: with the credential absent,
`/api/models` and `/api/generate` do return 500, but their bodies contain
no `keyLoaded` field at all. -/
theorem api_routes_no_key_counterexample :
    (apiModelsHandler none).status = 500
  ∧ bodyGet (apiModelsHandler none) "keyLoaded" = none
  ∧ (handleGenerate none prov404 (some "a cat")).1.status = 500
  ∧ bodyGet (handleGenerate none prov404 (some "a cat")).1 "keyLoaded" = none := by decide

/-- Witness for C2 (amended) with a concrete missing key, services and
prompt. -/
theorem api_routes_no_key_500_witness :
    (listModelsHandler none (Except.error "down")).status = 500
  ∧ listModelsHandler none (Except.error "down")
      = listModelsHandler none (Except.ok { ok := true, errMessage := none, models := none })
  ∧ bodyGet (listModelsHandler none (Except.error "down")) "keyLoaded" = some (JVal.bool false)
  ∧ (testKeyHandler none (fun _ => Except.error err404cex)).status = 500
  ∧ testKeyHandler none (fun _ => Except.error err404cex)
      = testKeyHandler none (fun _ => Except.ok "hello")
  ∧ bodyGet (testKeyHandler none (fun _ => Except.error err404cex)) "keyLoaded"
      = some (JVal.bool false)
  ∧ (apiModelsHandler none).status = 500
  ∧ handleGenerate none prov404 (some "a cat") = (noKeyGenerateResponse, [])
  ∧ handleGenerate none prov404 (some "a cat") = handleGenerate none provMixedErrors (some "a cat") :=
  api_routes_no_key_500 none (Except.error "down")
    (Except.ok { ok := true, errMessage := none, models := none })
    (fun _ => Except.error err404cex) (fun _ => Except.ok "hello")
    prov404 provMixedErrors (some "a cat") (by decide) ⟨"a cat", rfl, by decide⟩

/-- C10: a candidate response with an empty candidates array is rejected
through the generic exception path: the thrown
`No response from Gemini API` error matches none of the 404/429/401
branches, so the relay answers 500 with that message (in particular not
501). -/
theorem empty_candidates_500 (k p : String) (resp : GmResponse)
    (hk : k ≠ "") (hp : jsTrim p ≠ "") (hc : resp.candidates = []) :
    (handleGenerate (some k) (fun _ _ _ => Except.ok resp) (some p)).1 =
      { status := 500
        body := [("error", JVal.str "Failed to generate image"),
                 ("message", JVal.str "No response from Gemini API")] }
    ∧ (handleGenerate (some k) (fun _ _ _ => Except.ok resp) (some p)).1.status ≠ 501 := by
  have hm := runModels_first_ok (fun _ _ _ => Except.ok resp) ("Generate an image: " ++ p)
    "gemini-2.5-flash-image-preview"
    ["gemini-2.0-flash-exp", "gemini-2.5-flash-image", "gemini-1.5-flash",
     "gemini-1.5-pro", "gemini-pro"]
    { quotaError := none, lastError := none } resp rfl
  have hcl : classifyError noGmResponseError =
      { status := 500
        body := [("error", JVal.str "Failed to generate image"),
                 ("message", JVal.str "No response from Gemini API")] } := by decide
  have hout : (handleGenerate (some k) (fun _ _ _ => Except.ok resp) (some p)).1 =
      { status := 500
        body := [("error", JVal.str "Failed to generate image"),
                 ("message", JVal.str "No response from Gemini API")] } := by
    rw [handleGenerate_valid k p _ hk hp]
    rw [show modelNames = "gemini-2.5-flash-image-preview" ::
        ["gemini-2.0-flash-exp", "gemini-2.5-flash-image", "gemini-1.5-flash",
         "gemini-1.5-pro", "gemini-pro"] from rfl]
    rw [hm]
    simp [processResponse, hc, hcl]
  exact ⟨hout, by rw [hout]; decide⟩

/-- Witness for C10 at a concrete empty-candidates response. -/
theorem empty_candidates_500_witness :
    (handleGenerate (some "key") (fun _ _ _ => Except.ok emptyCandResp) (some "a cat")).1 =
      { status := 500
        body := [("error", JVal.str "Failed to generate image"),
                 ("message", JVal.str "No response from Gemini API")] }
    ∧ (handleGenerate (some "key") (fun _ _ _ => Except.ok emptyCandResp) (some "a cat")).1.status ≠ 501 :=
  empty_candidates_500 "key" "a cat" emptyCandResp (by decide) (by decide) rfl

/-- C7: when the provider responds with no part declaring an image MIME
type, the relay answers with the 501 capability-mismatch body, whose
`response` field is the response text truncated to at most 500
characters. -/
theorem text_only_501 (k p : String) (resp : GmResponse) (c : GmCandidate)
    (cs : List GmCandidate)
    (hk : k ≠ "") (hp : jsTrim p ≠ "") (hc : resp.candidates = c :: cs)
    (hno : c.content.parts.find? imagePartPred = none) :
    (handleGenerate (some k) (fun _ _ _ => Except.ok resp) (some p)).1 = textOnlyResponse resp
  ∧ (textOnlyResponse resp).status = 501
  ∧ bodyGet (textOnlyResponse resp) "response" = some (JVal.str (jsTake resp.text 500))
  ∧ (jsTake resp.text 500).length ≤ 500 := by
  have hm := runModels_first_ok (fun _ _ _ => Except.ok resp) ("Generate an image: " ++ p)
    "gemini-2.5-flash-image-preview"
    ["gemini-2.0-flash-exp", "gemini-2.5-flash-image", "gemini-1.5-flash",
     "gemini-1.5-pro", "gemini-pro"]
    { quotaError := none, lastError := none } resp rfl
  refine ⟨?_, rfl, ?_, ?_⟩
  · rw [handleGenerate_valid k p _ hk hp]
    rw [show modelNames = "gemini-2.5-flash-image-preview" ::
        ["gemini-2.0-flash-exp", "gemini-2.5-flash-image", "gemini-1.5-flash",
         "gemini-1.5-pro", "gemini-pro"] from rfl]
    rw [hm]
    show processResponse resp p = textOnlyResponse resp
    have hfi : firstImageData c.content.parts = none := by
      simp [firstImageData, hno]
    simp only [processResponse.eq_def, hc, hfi]
  · rfl
  · show (resp.text.data.take 500).length ≤ 500
    rw [List.length_take]
    exact Nat.min_le_left _ _

/-- Witness for C7 at a concrete text-only response. -/
theorem text_only_501_witness :
    (handleGenerate (some "key") (fun _ _ _ => Except.ok textGmResp) (some "a cat")).1
        = textOnlyResponse textGmResp
  ∧ (textOnlyResponse textGmResp).status = 501
  ∧ bodyGet (textOnlyResponse textGmResp) "response"
      = some (JVal.str (jsTake textGmResp.text 500))
  ∧ (jsTake textGmResp.text 500).length ≤ 500 :=
  text_only_501 "key" "a cat" textGmResp
    { content := { parts := [{ inlineData := none }] } } []
    (by decide) (by decide) rfl (by decide)

/-- C3 (amended): when the fallback loop yields a response whose first
first candidate holds a part declaring an image MIME type with a
non-empty payload, the relay answers 200 with `success: true`, the prompt
echoed back, and `image` a data URI whose payload comes from the first
image-MIME part but whose MIME type is `responseMime`: the type declared by
the first part with any non-empty MIME type (defaulting to `image/png`). -/
theorem generate_image_success (k p : String) (resp : GmResponse) (c : GmCandidate)
    (cs : List GmCandidate) (d : String)
    (hk : k ≠ "") (hp : jsTrim p ≠ "") (hc : resp.candidates = c :: cs)
    (hd : firstImageData c.content.parts = some d) (hne : d ≠ "") :
    (handleGenerate (some k) (fun _ _ _ => Except.ok resp) (some p)).1 =
      { status := 200
        body := [("success", JVal.bool true),
                 ("image", JVal.str ("data:" ++ responseMime c.content.parts ++ ";base64," ++ d)),
                 ("prompt", JVal.str p)] } := by
  have hm := runModels_first_ok (fun _ _ _ => Except.ok resp) ("Generate an image: " ++ p)
    "gemini-2.5-flash-image-preview"
    ["gemini-2.0-flash-exp", "gemini-2.5-flash-image", "gemini-1.5-flash",
     "gemini-1.5-pro", "gemini-pro"]
    { quotaError := none, lastError := none } resp rfl
  rw [handleGenerate_valid k p _ hk hp]
  rw [show modelNames = "gemini-2.5-flash-image-preview" ::
      ["gemini-2.0-flash-exp", "gemini-2.5-flash-image", "gemini-1.5-flash",
       "gemini-1.5-pro", "gemini-pro"] from rfl]
  rw [hm]
  show processResponse resp p = _
  have hdb : (d == "") = false := by simp [hne]
  simp only [processResponse.eq_def, hc, hd, hdb, Bool.false_eq_true, if_false]

/-- Witness for C3 (amended), realizing the concrete example of the spec: a
single `image/png` part with payload `AAAA` yields
`data:image/png;base64,AAAA` and the echoed prompt. -/
theorem generate_image_success_witness :
    (handleGenerate (some "key") (fun _ _ _ => Except.ok pngResp) (some "a cat")).1 =
      { status := 200
        body := [("success", JVal.bool true),
                 ("image", JVal.str "data:image/png;base64,AAAA"),
                 ("prompt", JVal.str "a cat")] } :=
  (generate_image_success "key" "a cat" pngResp pngCand [] "AAAA"
    (by decide) (by decide) rfl (by decide) (by decide)).trans (by decide)

/-- Counterexample to C3 as stated: when a `text/plain` part precedes the
`image/png` part, the payload comes from the image part but the MIME type
comes from the earlier part, so the data URI is `data:text/plain;...`, not
the `data:image/png;...` of the image part. -/
theorem image_mime_mismatch_counterexample :
    ((mixedMimeResp.candidates.map fun c => c.content.parts.find? imagePartPred)
        = [some { inlineData := some { mimeType := some "image/png", data := "AAAA" } }])
  ∧ bodyGet (handleGenerate (some "key") (fun _ _ _ => Except.ok mixedMimeResp)
        (some "a cat")).1 "image"
      = some (JVal.str "data:text/plain;base64,AAAA")
  ∧ JVal.str "data:text/plain;base64,AAAA" ≠ JVal.str "data:image/png;base64,AAAA" := by
  decide

/-- C5: every exception surfacing from the generation steps is mapped to
exactly the status the spec lists, with the precedence of the spec
(`specErrorStatus`): not-found to 404 "Model not found"; quota to 429 with
a `retryAfter` hint read from the error details and defaulting to 16
seconds when the details are absent; 401 / "API key" to 401 "Invalid API
key"; anything else to the generic 500 whose body passes the underlying
message through. -/
theorem generate_error_classification (e : GmError) :
    (classifyError e).status = specErrorStatus e
  ∧ (specErrorStatus e = 404 →
      bodyGet (classifyError e) "error" = some (JVal.str "Model not found"))
  ∧ (specErrorStatus e = 429 →
      bodyGet (classifyError e) "retryAfter" = some (JVal.str (retryAfterOf e ++ " seconds")))
  ∧ (e.errorDetails = none → retryAfterOf e = "16")
  ∧ (specErrorStatus e = 401 →
      bodyGet (classifyError e) "error" = some (JVal.str "Invalid API key"))
  ∧ (specErrorStatus e = 500 →
      bodyGet (classifyError e) "error" = some (JVal.str "Failed to generate image")
        ∧ ∀ m, e.message = some m →
            bodyGet (classifyError e) "message" = some (JVal.str m)) := by
  have hdet : e.errorDetails = none → retryAfterOf e = "16" := by
    intro h
    simp [retryAfterOf, h]
  by_cases h404 : isNotFoundError e = true
  · refine ⟨?_, fun _ => ?_, fun hx => ?_, hdet, fun hx => ?_, fun hx => ?_⟩
    · simp [classifyError, specErrorStatus, h404]
    · rcases hmm : e.message with _ | m <;>
        simp [classifyError, h404, bodyGet, detailsField, hmm]
    · simp [specErrorStatus, h404] at hx
    · simp [specErrorStatus, h404] at hx
    · simp [specErrorStatus, h404] at hx
  · by_cases h429 : isQuotaError e = true
    · refine ⟨?_, fun hx => ?_, fun _ => ?_, hdet, fun hx => ?_, fun hx => ?_⟩
      · simp [classifyError, specErrorStatus, h404, h429]
      · simp [specErrorStatus, h404, h429] at hx
      · rcases hmm : e.message with _ | m <;>
          simp [classifyError, h404, h429, bodyGet, detailsField, hmm]
      · simp [specErrorStatus, h404, h429] at hx
      · simp [specErrorStatus, h404, h429] at hx
    · by_cases h401 : (e.status == some 401 || msgIncludes e "API key") = true
      · refine ⟨?_, fun hx => ?_, fun hx => ?_, hdet, fun _ => ?_, fun hx => ?_⟩
        · simp [classifyError, specErrorStatus, h404, h429, h401]
        · simp [specErrorStatus, h404, h429, h401] at hx
        · simp [specErrorStatus, h404, h429, h401] at hx
        · simp [classifyError, h404, h429, h401, bodyGet]
        · simp [specErrorStatus, h404, h429, h401] at hx
      · refine ⟨?_, fun hx => ?_, fun hx => ?_, hdet, fun hx => ?_, fun _ => ⟨?_, ?_⟩⟩
        · simp [classifyError, specErrorStatus, h404, h429, h401]
        · simp [specErrorStatus, h404, h429, h401] at hx
        · simp [specErrorStatus, h404, h429, h401] at hx
        · simp [specErrorStatus, h404, h429, h401] at hx
        · rcases hmm : e.message with _ | m <;>
            simp [classifyError, h404, h429, h401, bodyGet, messageField, hmm]
        · intro m hmm
          simp [classifyError, h404, h429, h401, bodyGet, messageField, hmm]

/-- C4: for one candidate of the fallback loop, the exact call/sleep trace:
a first attempt is always made; a further attempt on the same candidate
happens only after a quota-classified failure (HTTP 429 or a message
containing `quota`/`Quota`), each retry is preceded by the fixed 5-second
sleep, and at most 2 retries (3 attempts) are made before the loop gives
up on the candidate; a failure of any other classification is never
retried. -/
theorem quota_retry_policy (provider : Provider) (name fp : String) (st : LoopState) :
    (runCandidate provider name fp st).2.2 =
      (if attemptQuotaFailed provider name fp 0 = false then [Ev.call name 0]
       else if attemptQuotaFailed provider name fp 1 = false then
         [Ev.call name 0, Ev.sleep 5, Ev.call name 1]
       else [Ev.call name 0, Ev.sleep 5, Ev.call name 1, Ev.sleep 5, Ev.call name 2]) := by
  rw [runCandidate_unfold0]
  rcases h0 : provider name fp 0 with e0 | r0
  case ok => simp [attemptQuotaFailed, h0]
  case error =>
    rcases hq0 : isQuotaError e0 with _ | _
    · simp [attemptQuotaFailed, h0, hq0]
    · simp only [h0, hq0, if_true]
      rw [runCandidateAux_unfold1]
      rcases h1 : provider name fp 1 with e1 | r1
      case ok => simp [attemptQuotaFailed, h0, hq0, h1]
      case error =>
        rcases hq1 : isQuotaError e1 with _ | _
        · simp [attemptQuotaFailed, h0, hq0, h1, hq1]
        · simp only [h1, hq1, if_true]
          rw [runCandidateAux_unfold2]
          rcases h2 : provider name fp 2 with e2 | r2
          case ok => simp [attemptQuotaFailed, h0, hq0, h1, hq1, h2]
          case error =>
            rcases hq2 : isQuotaError e2 with _ | _ <;>
              simp [attemptQuotaFailed, h0, hq0, h1, hq1, h2, hq2]

/-- C1 (amended): when no candidate produces a response, the relay
rethrows the last error seen, of any classification — not specifically the
last non-quota error — and hands it to the catch-block classifier together
with the accumulated trace; when every error the provider produces is
quota-classified (quota was the only error type ever seen), the surfaced
error is that quota error.  The generic "no model found" fallback is
unreachable here because the candidate list is non-empty and every failed
candidate records an error. -/
theorem generate_failure_surfaces_last_error (provider : Provider) (k p : String)
    (st : LoopState) (tr : List Ev)
    (hk : k ≠ "") (hp : jsTrim p ≠ "")
    (h : runModels provider ("Generate an image: " ++ p) modelNames
        { quotaError := none, lastError := none } = (st, none, tr)) :
    ∃ e, (errorsSeen provider ("Generate an image: " ++ p) tr).getLast? = some e
      ∧ handleGenerate (some k) provider (some p) = (classifyError e, tr)
      ∧ ((∀ n i e2, provider n ("Generate an image: " ++ p) i = Except.error e2 →
            isQuotaError e2 = true) → isQuotaError e = true) := by
  rcases runModels_fail provider ("Generate an image: " ++ p) modelNames
      { quotaError := none, lastError := none } st tr h with
    ⟨hnil, -, -⟩ | ⟨e, i, n, hle, hpe, hlast⟩
  · exact absurd hnil (by decide)
  · refine ⟨e, hlast, ?_, fun hall => hall n i e hpe⟩
    rw [handleGenerate_valid k p provider hk hp, h]
    have hs : surfacedError st = e := by
      rcases hq : st.quotaError <;> simp [surfacedError, hq, hle]
    simp [hs]

/-- Witness for C1 (amended): a provider failing every call with a plain
404 error; the relay surfaces that error (the last seen) with the
six-candidate one-attempt-each trace. -/
theorem generate_failure_surfaces_last_error_witness :
    ∃ e, (errorsSeen prov404 ("Generate an image: " ++ "a cat") tr404).getLast? = some e
      ∧ handleGenerate (some "key") prov404 (some "a cat") = (classifyError e, tr404)
      ∧ ((∀ n i e2, prov404 n ("Generate an image: " ++ "a cat") i = Except.error e2 →
            isQuotaError e2 = true) → isQuotaError e = true) :=
  generate_failure_surfaces_last_error prov404 "key" "a cat"
    { quotaError := none, lastError := some err404cex } tr404
    (by decide) (by decide) (by decide)

/-- Counterexample to C1 as stated: the first candidate fails with a plain
404 (a non-quota error), every later candidate fails with quota, and the
relay surfaces the *quota* error (429) even though the last non-quota
error seen — the 404 — would classify to 404. -/
theorem quota_shadows_last_nonquota_counterexample :
    (handleGenerate (some "key") provMixedErrors (some "a cat")).1.status = 429
  ∧ ((errorsSeen provMixedErrors ("Generate an image: " ++ "a cat")
        (handleGenerate (some "key") provMixedErrors (some "a cat")).2).filter
          (fun e => !isQuotaError e)) = [err404cex]
  ∧ (classifyError err404cex).status = 404
  ∧ (handleGenerate (some "key") provMixedErrors (some "a cat")).1.status
      ≠ (classifyError err404cex).status := by
  decide
